import Mathlib

/-!
Verification development for the StreamController tray-icon subsystem
(src/src/tray.py) and the pending-image hand-off channel.

The registration retry loop `TrayIcon._do_register_with_retry` is embedded
as a pure function over the sequence of attempt numbers `[1..MAX_RETRIES]`.
Each attempt's outside-world behaviour (the UI-thread rendezvous) is an
input `outcome : Nat → Outcome`; the `_stop_retry` flag as observed at the
top of each iteration is an input `stopAt : Nat → Bool`.  The loop returns
the final `_is_registered` value (starting from `false`) together with the
trace of observable events (registration attempts, warning logs, backoff
sleeps, terminal logs), in order.
-/

namespace Tray

/-- Class constant `TrayIcon.MAX_RETRIES` (tray.py line 15). -/
def MAX_RETRIES : Nat := 5

/-- Class constant `TrayIcon.RETRY_DELAY_SECONDS` (tray.py line 16). -/
def RETRY_DELAY_SECONDS : Nat := 2

/-- Result of one attempt's UI-thread rendezvous, as seen by the background
thread after `event.wait(timeout=10)` (tray.py lines 92-100):
`success` = the result slot holds `True`; `error` = the result slot holds an
exception (re-raised by the loop body); `timeout` = the wait timed out and
the result slot still holds `None`. -/
inductive Outcome
  | success
  | error
  | timeout
deriving DecidableEq, Repr

/-- Observable events of the retry loop, in program order:
`att i` = attempt `i` performed (idle_add + wait, tray.py lines 92-93);
`warn i` = the warning log naming attempt `i` (line 103);
`sleep s` = a backoff sleep of `s` seconds (line 105);
`cancelLog` = the cancellation debug log (line 75);
`successLog` = the success info log (line 97);
`giveUpLog` = the terminal failure log after the loop (line 107). -/
inductive REv
  | att (i : Nat)
  | warn (i : Nat)
  | sleep (secs : Nat)
  | cancelLog
  | successLog
  | giveUpLog
deriving DecidableEq, Repr

/-- One pass of the `for attempt in range(1, MAX_RETRIES + 1)` loop body of
`TrayIcon._do_register_with_retry` (tray.py lines 73-105), iterated over the
remaining attempt numbers.  The empty list is loop exhaustion, which falls
through to the terminal `log.error` (line 107).  At the head attempt `a` the
flag is consulted first (line 74); then the rendezvous outcome decides:
`success` sets `_is_registered`, logs, and returns (lines 95-98); `error`
raises, is caught, logs the attempt number, and sleeps only when
`attempt < MAX_RETRIES` (lines 99-105); `timeout` leaves the result slot
`None`, so the body falls through with no log and no sleep and the loop
simply advances. -/
def loopGo (outcome : Nat → Outcome) (stopAt : Nat → Bool) : List Nat → Bool × List REv
  | [] => (false, [REv.giveUpLog])
  | a :: rest =>
    if stopAt a then (false, [REv.cancelLog])
    else
      match outcome a with
      | Outcome.success => (true, [REv.att a, REv.successLog])
      | Outcome.error =>
        ((loopGo outcome stopAt rest).1,
          REv.att a :: REv.warn a ::
            ((if a < MAX_RETRIES then [REv.sleep RETRY_DELAY_SECONDS] else [])
              ++ (loopGo outcome stopAt rest).2))
      | Outcome.timeout =>
        ((loopGo outcome stopAt rest).1, REv.att a :: (loopGo outcome stopAt rest).2)

/-- The attempt numbers visited by `range(1, MAX_RETRIES + 1)`. -/
def attemptNumbers : List Nat := List.range' 1 MAX_RETRIES

/-- The whole of `TrayIcon._do_register_with_retry` (tray.py lines 71-107),
started with `_is_registered = false`. -/
def doRegisterWithRetry (outcome : Nat → Outcome) (stopAt : Nat → Bool) : Bool × List REv :=
  loopGo outcome stopAt attemptNumbers

/-- Recognises attempt events. -/
def isAtt : REv → Bool
  | REv.att _ => true
  | _ => false

/-- Recognises backoff-sleep events. -/
def isSleep : REv → Bool
  | REv.sleep _ => true
  | _ => false

/-- Number of registration attempts recorded in a trace. -/
def countAtt (es : List REv) : Nat := (es.filter isAtt).length

/-- The backoff sleeps recorded in a trace, in order. -/
def sleeps (es : List REv) : List REv := es.filter isSleep

theorem attemptNumbers_eq : attemptNumbers = [1, 2, 3, 4, 5] := rfl

end Tray

namespace Tray

/-- C1: with a registration call that fails on each of the first 4 attempts
and succeeds on the 5th (and stop never requested), the retry loop ends with
`_is_registered = true`, performs exactly 5 attempts and exactly 4 backoff
sleeps of `RETRY_DELAY_SECONDS = 2`, and the trace ends with the 5th attempt
and its success log, so nothing follows the success. -/
theorem retry_fails4_then_succeeds (outcome : Nat → Outcome) (stopAt : Nat → Bool)
    (h1 : outcome 1 = Outcome.error) (h2 : outcome 2 = Outcome.error)
    (h3 : outcome 3 = Outcome.error) (h4 : outcome 4 = Outcome.error)
    (h5 : outcome 5 = Outcome.success) (hs : ∀ i, stopAt i = false) :
    (doRegisterWithRetry outcome stopAt).1 = true
      ∧ countAtt (doRegisterWithRetry outcome stopAt).2 = 5
      ∧ sleeps (doRegisterWithRetry outcome stopAt).2 = List.replicate 4 (REv.sleep 2)
      ∧ (doRegisterWithRetry outcome stopAt).2.getLast? = some REv.successLog
      ∧ (doRegisterWithRetry outcome stopAt).2.dropLast.getLast? = some (REv.att 5) := by
  have key : doRegisterWithRetry outcome stopAt =
      (true, [REv.att 1, REv.warn 1, REv.sleep 2,
              REv.att 2, REv.warn 2, REv.sleep 2,
              REv.att 3, REv.warn 3, REv.sleep 2,
              REv.att 4, REv.warn 4, REv.sleep 2,
              REv.att 5, REv.successLog]) := by
    simp [doRegisterWithRetry, attemptNumbers_eq, loopGo, h1, h2, h3, h4, h5, hs,
      MAX_RETRIES, RETRY_DELAY_SECONDS]
  rw [key]
  refine ⟨rfl, ?_, ?_, ?_, ?_⟩ <;> decide

/-- Concrete registration behaviour: attempts 1-4 raise, attempt 5 succeeds. -/
def outcomeFourFails : Nat → Outcome := fun i => if i = 5 then Outcome.success else Outcome.error

/-- Stop is never requested. -/
def stopNever : Nat → Bool := fun _ => false

theorem retry_fails4_then_succeeds_witness :
    (doRegisterWithRetry outcomeFourFails stopNever).1 = true
      ∧ countAtt (doRegisterWithRetry outcomeFourFails stopNever).2 = 5 := by
  have h := retry_fails4_then_succeeds outcomeFourFails stopNever
    (by decide) (by decide) (by decide) (by decide) (by decide) (fun i => rfl)
  exact ⟨h.1, h.2.1⟩

end Tray

namespace Tray

/-- Concrete registration behaviour: attempt 1 times out at the rendezvous,
every later attempt raises. -/
def outcomeTimeoutFirst : Nat → Outcome := fun i => if i = 1 then Outcome.timeout else Outcome.error

/-- C2 counterexample: with attempt 1 timing out (and later attempts
raising), the trace contains no warning naming attempt 1, and attempt 2
immediately follows attempt 1 with no backoff sleep in between — so a
timed-out attempt is NOT treated identically to an attempt that raised. -/
theorem timeout_attempt_silent_cex :
    (doRegisterWithRetry outcomeTimeoutFirst stopNever).2 =
      [REv.att 1,
       REv.att 2, REv.warn 2, REv.sleep 2,
       REv.att 3, REv.warn 3, REv.sleep 2,
       REv.att 4, REv.warn 4, REv.sleep 2,
       REv.att 5, REv.warn 5, REv.giveUpLog]
      ∧ REv.warn 1 ∉ (doRegisterWithRetry outcomeTimeoutFirst stopNever).2
      ∧ (doRegisterWithRetry outcomeTimeoutFirst stopNever).2.take 2 =
        [REv.att 1, REv.att 2] := by
  refine ⟨?_, ?_, ?_⟩ <;> decide

/-- C2 amended: an attempt whose UI-thread rendezvous times out does count
against `MAX_RETRIES` (the loop advances to the next attempt number), but —
unlike an attempt that raised — it is logged with no attempt-numbered
warning and is followed by no backoff sleep: the body falls through and the
trace gains only the attempt event itself. -/
theorem timeout_attempt_counts_but_skips_backoff (outcome : Nat → Outcome)
    (stopAt : Nat → Bool) (a : Nat) (rest : List Nat)
    (hstop : stopAt a = false) (hout : outcome a = Outcome.timeout) :
    loopGo outcome stopAt (a :: rest) =
      ((loopGo outcome stopAt rest).1,
        REv.att a :: (loopGo outcome stopAt rest).2) := by
  simp [loopGo, hstop, hout]

theorem timeout_attempt_counts_but_skips_backoff_witness :
    loopGo outcomeTimeoutFirst stopNever [1, 2, 3, 4, 5] =
      ((loopGo outcomeTimeoutFirst stopNever [2, 3, 4, 5]).1,
        REv.att 1 :: (loopGo outcomeTimeoutFirst stopNever [2, 3, 4, 5]).2) :=
  timeout_attempt_counts_but_skips_backoff outcomeTimeoutFirst stopNever 1 [2, 3, 4, 5]
    (by decide) (by decide)

/-- C3: with a registration call that fails on every attempt (and stop never
requested), the loop performs exactly `MAX_RETRIES = 5` attempts, the trace
ends with the terminal failure log, the loop function returns normally (it
is total, mirroring that every exception is caught inside the body), and
`_is_registered` remains `false`. -/
theorem retry_always_fails_gives_up (outcome : Nat → Outcome) (stopAt : Nat → Bool)
    (he : ∀ i, outcome i = Outcome.error) (hs : ∀ i, stopAt i = false) :
    (doRegisterWithRetry outcome stopAt).1 = false
      ∧ countAtt (doRegisterWithRetry outcome stopAt).2 = 5
      ∧ (doRegisterWithRetry outcome stopAt).2.getLast? = some REv.giveUpLog := by
  have key : doRegisterWithRetry outcome stopAt =
      (false, [REv.att 1, REv.warn 1, REv.sleep 2,
               REv.att 2, REv.warn 2, REv.sleep 2,
               REv.att 3, REv.warn 3, REv.sleep 2,
               REv.att 4, REv.warn 4, REv.sleep 2,
               REv.att 5, REv.warn 5, REv.giveUpLog]) := by
    simp [doRegisterWithRetry, attemptNumbers_eq, loopGo, he, hs,
      MAX_RETRIES, RETRY_DELAY_SECONDS]
  rw [key]
  refine ⟨rfl, ?_, ?_⟩ <;> decide

/-- Concrete registration behaviour: every attempt raises. -/
def outcomeAlwaysFails : Nat → Outcome := fun _ => Outcome.error

theorem retry_always_fails_gives_up_witness :
    (doRegisterWithRetry outcomeAlwaysFails stopNever).1 = false
      ∧ countAtt (doRegisterWithRetry outcomeAlwaysFails stopNever).2 = 5 := by
  have h := retry_always_fails_gives_up outcomeAlwaysFails stopNever
    (fun i => rfl) (fun i => rfl)
  exact ⟨h.1, h.2.1⟩

/-- C7: `loopGo outcome stopAt (a :: rest)` is the loop at the top of the
iteration for attempt `a`, so the statement quantifying over every `a` and
`rest` says the `_stop_retry` flag is consulted at the top of every retry
iteration; and whenever the flag is observed set, the loop terminates at
once with only the cancellation debug log — no registration attempt, no
backoff sleep, and no change to `_is_registered` for that or any later
iteration.  An attempt from an earlier iteration is already in the trace
prefix built by the caller, so cancellation is cooperative, never
preemptive. -/
theorem stop_flag_checked_each_iteration (outcome : Nat → Outcome) (stopAt : Nat → Bool)
    (a : Nat) (rest : List Nat) (h : stopAt a = true) :
    loopGo outcome stopAt (a :: rest) = (false, [REv.cancelLog]) := by
  simp [loopGo, h]

/-- Stop is requested from the start. -/
def stopAlways : Nat → Bool := fun _ => true

theorem stop_flag_checked_each_iteration_witness :
    loopGo outcomeAlwaysFails stopAlways [1, 2, 3, 4, 5] = (false, [REv.cancelLog]) :=
  stop_flag_checked_each_iteration outcomeAlwaysFails stopAlways 1 [2, 3, 4, 5] (by decide)

end Tray

namespace Tray

/-- Registration-manager state of a `TrayIcon` instance: the
`_is_registered` and `_stop_retry` flags (tray.py lines 42-44) and the
number of retry worker threads spawned so far (each call to
`self._registration_thread.start()` on line 69 counts one). -/
structure TrayState where
  is_registered : Bool
  stop_retry : Bool
  workers : Nat
deriving DecidableEq, Repr

/-- Embeds `TrayIcon._register_with_retry` (tray.py lines 58-69): if
`_is_registered` is set, return at once; otherwise clear `_stop_retry` and
spawn a new background retry thread. -/
def registerWithRetry (s : TrayState) : TrayState :=
  if s.is_registered then s
  else { s with stop_retry := false, workers := s.workers + 1 }

/-- Embeds `TrayIcon.start` (tray.py lines 109-111): it simply calls
`_register_with_retry`, consulting no setting. -/
def start (s : TrayState) : TrayState := registerWithRetry s

/-- Embeds the registration-relevant tail of `TrayIcon.initialize`
(tray.py lines 53-56): read the tray-icon visibility preference and call
`_register_with_retry` only when it is enabled. -/
def initializeTray (pref : Bool) (s : TrayState) : TrayState :=
  if pref then registerWithRetry s else s

/-- A registration cycle in flight: one worker spawned, not yet registered,
and stop has been requested for it. -/
def inFlightStopped : TrayState :=
  { is_registered := false, stop_retry := true, workers := 1 }

/-- C4 counterexample: with a retry cycle in flight (one worker spawned) but
not yet registered, a second call to `start()` / `_register_with_retry` is
NOT a no-op — it spawns a second retry worker and resets the
`_stop_retry` flag, because the guard on tray.py line 60 checks only
`_is_registered`, never whether a worker is already running. -/
theorem second_register_call_not_noop_cex :
    (registerWithRetry inFlightStopped).workers = 2
      ∧ (registerWithRetry inFlightStopped).stop_retry = false
      ∧ registerWithRetry inFlightStopped ≠ inFlightStopped := by
  refine ⟨?_, ?_, ?_⟩ <;> decide

/-- C4 amended: a call to `_register_with_retry` is a no-op exactly when
`_is_registered` is already true; while a cycle is in flight but not yet
registered, every further call spawns one more retry worker and resets
`_stop_retry` to false (so more than one worker can exist per cycle). -/
theorem register_with_retry_guard (s : TrayState) :
    (s.is_registered = true → registerWithRetry s = s)
      ∧ (s.is_registered = false →
          (registerWithRetry s).workers = s.workers + 1
            ∧ (registerWithRetry s).stop_retry = false
            ∧ (registerWithRetry s).is_registered = false) := by
  constructor
  · intro h
    simp [registerWithRetry, h]
  · intro h
    simp [registerWithRetry, h]

theorem register_with_retry_guard_witness :
    registerWithRetry { is_registered := true, stop_retry := false, workers := 0 } =
      { is_registered := true, stop_retry := false, workers := 0 } :=
  (register_with_retry_guard
    { is_registered := true, stop_retry := false, workers := 0 }).1 rfl

/-- Idle unregistered state: no worker spawned yet. -/
def idleState : TrayState :=
  { is_registered := false, stop_retry := false, workers := 0 }

/-- C5 counterexample: `start()` never reads the tray-visibility
preference — from the idle unregistered state it spawns a retry worker
unconditionally, so with the preference disabled `start()` still spawns one
(while `initialize` with the preference disabled spawns none). -/
theorem start_ignores_preference_cex :
    (start idleState).workers = 1
      ∧ initializeTray false idleState = idleState := by
  refine ⟨?_, ?_⟩ <;> decide

/-- C5 amended: `initialize` spawns the retry worker only when the
tray-visibility preference is enabled and `_is_registered` is false, while
`start()` spawns it whenever `_is_registered` is false, regardless of the
preference (which it never consults). -/
theorem entry_points_spawn_conditions (pref : Bool) (s : TrayState) :
    (pref = false → initializeTray pref s = s)
      ∧ (pref = true → initializeTray pref s = registerWithRetry s)
      ∧ (s.is_registered = false → (start s).workers = s.workers + 1)
      ∧ (s.is_registered = true → start s = s) := by
  refine ⟨?_, ?_, ?_, ?_⟩
  · intro h; simp [initializeTray, h]
  · intro h; simp [initializeTray, h]
  · intro h; simp [start, registerWithRetry, h]
  · intro h; simp [start, registerWithRetry, h]

theorem entry_points_spawn_conditions_witness :
    initializeTray false idleState = idleState ∧ (start idleState).workers = 1 := by
  have h := entry_points_spawn_conditions false idleState
  exact ⟨h.1 rfl, h.2.2.1 rfl⟩

end Tray

namespace Tray

/-- Embeds `TrayIcon.stop` (tray.py lines 113-121).  The behaviour of the
external `self.unregister()` call is an input `unregResult` (`ok` = returns,
`error e` = raises `e`).  The result is `Except.ok (new state, number of
unregister calls made)`; an `Except.error` result would mean an exception
propagated to the caller.  Mirroring the source: `_stop_retry` is set first;
`unregister` is called only under `if self._is_registered:`; a raise from it
is caught by the `except` clause (logged, swallowed), which also skips the
`_is_registered = False` assignment. -/
def stop (unregResult : Except String Unit) (s : TrayState) : Except String (TrayState × Nat) :=
  if ({ s with stop_retry := true } : TrayState).is_registered then
    match unregResult with
    | Except.ok _ => Except.ok ({ s with stop_retry := true, is_registered := false }, 1)
    | Except.error _ => Except.ok ({ s with stop_retry := true }, 1)
  else Except.ok ({ s with stop_retry := true }, 0)

/-- C6: `stop()` always returns normally (an `Except.ok` result, whatever
`unregister` does), always sets `_stop_retry`, calls `unregister` exactly
once when registered and never otherwise; and after a `stop()` whose
unregistration succeeded, a second `stop()` is idempotent: it returns
normally, leaves the state unchanged, and performs no second unregister
call. -/
theorem stop_swallows_and_idempotent (u u2 : Except String Unit) (s : TrayState) :
    (∃ s1 n1, stop u s = Except.ok (s1, n1)
        ∧ s1.stop_retry = true
        ∧ n1 = (if s.is_registered then 1 else 0))
      ∧ (s.is_registered = true → u = Except.ok () →
          ∃ s1, stop u s = Except.ok (s1, 1) ∧ stop u2 s1 = Except.ok (s1, 0)) := by
  constructor
  · cases hr : s.is_registered with
    | false =>
      refine ⟨{ s with stop_retry := true }, 0, ?_, rfl, ?_⟩
      · simp [stop, hr]
      · simp [hr]
    | true =>
      cases u with
      | ok v =>
        refine ⟨{ s with stop_retry := true, is_registered := false }, 1, ?_, rfl, ?_⟩
        · simp [stop, hr]
        · simp [hr]
      | error e =>
        refine ⟨{ s with stop_retry := true }, 1, ?_, rfl, ?_⟩
        · simp [stop, hr]
        · simp [hr]
  · intro hr hu
    subst hu
    refine ⟨{ s with stop_retry := true, is_registered := false }, ?_, ?_⟩
    · simp [stop, hr]
    · simp [stop]

/-- A registered tray icon with no retry cycle pending. -/
def regState : TrayState :=
  { is_registered := true, stop_retry := false, workers := 1 }

theorem stop_swallows_and_idempotent_witness :
    ∃ s1, stop (Except.ok ()) regState = Except.ok (s1, 1)
      ∧ stop (Except.error "y") s1 = Except.ok (s1, 0) :=
  (stop_swallows_and_idempotent (Except.ok ()) (Except.error "y") regState).2 rfl rfl

/-- C10: when the tray icon is registered, a `stop()` whose `unregister`
raises returns normally with `_is_registered` still true (the assignment on
tray.py line 119 is skipped), so a later `stop()` attempts unregistration
again (it makes exactly one unregister call, whatever its outcome); and
`_is_registered` is set to false exactly on the path where `unregister`
returned without raising. -/
theorem failed_unregister_keeps_registered (e : String) (u2 : Except String Unit)
    (s : TrayState) (h : s.is_registered = true) :
    stop (Except.error e) s = Except.ok ({ s with stop_retry := true }, 1)
      ∧ ({ s with stop_retry := true } : TrayState).is_registered = true
      ∧ (∃ s2 n2, stop u2 { s with stop_retry := true } = Except.ok (s2, n2) ∧ n2 = 1)
      ∧ stop (Except.ok ()) s =
          Except.ok ({ s with stop_retry := true, is_registered := false }, 1) := by
  refine ⟨?_, ?_, ?_, ?_⟩
  · simp [stop, h]
  · exact h
  · cases u2 with
    | ok v => exact ⟨{ s with stop_retry := true, is_registered := false }, 1, by simp [stop, h], rfl⟩
    | error e2 => exact ⟨{ s with stop_retry := true }, 1, by simp [stop, h], rfl⟩
  · simp [stop, h]

theorem failed_unregister_keeps_registered_witness :
    stop (Except.error "boom") regState = Except.ok ({ regState with stop_retry := true }, 1) :=
  (failed_unregister_keeps_registered "boom" (Except.error "z") regState rfl).1

end Tray

namespace Menu

/-- One menu entry descriptor: stable integer id, a display label or `none`
for a separator, and the entry type observable through the service-bus
binding ("standard" for labelled items, "separator" for separators).
Callbacks are opaque and irrelevant to the verified structure. -/
structure MenuItem where
  id : Nat
  label : Option String
  mtype : String
deriving DecidableEq, Repr

/-- Modelled from the spec: `DBusMenu.add_menu_item` (src.backend.trayicon,
not under src/) — construction is a one-time, order-preserving append of one
descriptor to the ordered menu sequence. -/
def addMenuItem (menu : List MenuItem) (i : Nat) (label : Option String)
    (mtype : String) : List MenuItem :=
  menu ++ [{ id := i, label := label, mtype := mtype }]

/-- The menu built by `TrayIcon.__init__` (tray.py lines 21-28): seven
`add_menu_item` calls with ids 1..7, where ids 2 and 6 are separators.  The
model is a pure constant, matching the spec's MenuModel, which is built once
and immutable thereafter. -/
def trayMenu : List MenuItem :=
  addMenuItem (addMenuItem (addMenuItem (addMenuItem (addMenuItem (addMenuItem (addMenuItem
    [] 1 (some "Show Window") "standard")
    2 none "separator")
    3 (some "Settings") "standard")
    4 (some "Store") "standard")
    5 (some "About") "standard")
    6 none "separator")
    7 (some "Quit") "standard"

/-- C9: the constructed tray menu has exactly 7 entries in order with ids 1
through 7; the entries with ids 2 and 6 (positions 1 and 5) are separators
and no others are; entry 0 has id 1 and label "Show Window"; entry 1 has
type "separator". -/
theorem tray_menu_structure :
    trayMenu.length = 7
      ∧ trayMenu.map MenuItem.id = [1, 2, 3, 4, 5, 6, 7]
      ∧ trayMenu.map MenuItem.mtype =
          ["standard", "separator", "standard", "standard", "standard", "separator", "standard"]
      ∧ trayMenu.get? 0 = some { id := 1, label := some "Show Window", mtype := "standard" }
      ∧ (trayMenu.map MenuItem.mtype).get? 1 = some "separator" :=
  ⟨rfl, rfl, rfl, rfl, rfl⟩

end Menu

namespace Pending

/-- An event of the pending-image channel: either the worker thread records
a freshly rendered image for a key, or the UI thread drains the map and
applies every snapshotted pair.  Keys and images are opaque; `Nat` stands
for both. -/
inductive PEv
  | record (k : Nat) (img : Nat)
  | drain
deriving DecidableEq, Repr

/-- Modelled from the spec: `record_pending(key, image)` (the pending-map
writer of the image pipeline, whose implementation is not under src/) —
under the mutex, inserts or overwrites the entry for `key`, so at most one
pending image exists per key (last-writer-wins, never appends). -/
def recordPending (k img : Nat) (m : List (Nat × Nat)) : List (Nat × Nat) :=
  (k, img) :: m.filter (fun p => p.1 != k)

/-- One event's effect on the map.  Modelled from the spec:
`drain_and_apply` snapshots the current pairs (those are what it applies,
each exactly once) and clears the map; so after a drain the map is empty. -/
def stepP (m : List (Nat × Nat)) : PEv → List (Nat × Nat)
  | PEv.record k img => recordPending k img m
  | PEv.drain => []

/-- Pending map contents after a sequence of events, starting empty.  The
pairs a `drain_and_apply` placed after `es` applies are exactly
`pendingAfter es`. -/
def pendingAfter (es : List PEv) : List (Nat × Nat) := es.foldl stepP []

/-- Image pending for key `k` in map `m`, if any. -/
def lookupP (k : Nat) : List (Nat × Nat) → Option Nat
  | [] => none
  | (k2, img) :: m => if k2 = k then some img else lookupP k m

/-- Image of the most recent record for `k` since the last drain, written
directly from the event list (specification-side function), generalised
over the value pending before the events. -/
def lastPendingFrom (k : Nat) (acc : Option Nat) : List PEv → Option Nat
  | [] => acc
  | PEv.record k2 img :: es => lastPendingFrom k (if k2 = k then some img else acc) es
  | PEv.drain :: es => lastPendingFrom k none es

/-- Image of the most recent record for `k` since the last drain. -/
def lastPending (k : Nat) (es : List PEv) : Option Nat := lastPendingFrom k none es

/-- Image of the most recent record for `k` anywhere in the event list
(drains do not erase history), generalised over the initial value. -/
def lastRecordFrom (k : Nat) (acc : Option Nat) : List PEv → Option Nat
  | [] => acc
  | PEv.record k2 img :: es => lastRecordFrom k (if k2 = k then some img else acc) es
  | PEv.drain :: es => lastRecordFrom k acc es

/-- Image of the most recent record for `k` in the whole event list. -/
def lastRecord (k : Nat) (es : List PEv) : Option Nat := lastRecordFrom k none es

theorem lookupP_filter_ne (k k2 : Nat) (h : ¬ k2 = k) (m : List (Nat × Nat)) :
    lookupP k (m.filter (fun p => p.1 != k2)) = lookupP k m := by
  induction m with
  | nil => rfl
  | cons q m ih =>
    rcases q with ⟨a, b⟩
    by_cases ha : a = k2
    · subst ha
      simp [lookupP, List.filter_cons, h, ih]
    · by_cases hak : a = k <;> simp [lookupP, List.filter_cons, ha, hak, Ne.symm h, ih]

theorem lookupP_recordPending (k k2 img : Nat) (m : List (Nat × Nat)) :
    lookupP k (recordPending k2 img m) = if k2 = k then some img else lookupP k m := by
  by_cases h : k2 = k
  · simp [recordPending, lookupP, h]
  · simp [recordPending, lookupP, h, lookupP_filter_ne k k2 h m]

theorem keys_recordPending_nodup (k img : Nat) (m : List (Nat × Nat))
    (h : (m.map Prod.fst).Nodup) : ((recordPending k img m).map Prod.fst).Nodup := by
  unfold recordPending
  rw [List.map_cons, List.nodup_cons]
  constructor
  · intro hmem
    simp only [List.mem_map] at hmem
    obtain ⟨p, hp, hpk⟩ := hmem
    have hf := List.of_mem_filter hp
    rw [hpk] at hf
    simp at hf
  · exact List.Nodup.sublist ((m.filter_sublist).map Prod.fst) h

theorem keys_pendingAfter_aux (es : List PEv) :
    ∀ m : List (Nat × Nat), (m.map Prod.fst).Nodup →
      ((es.foldl stepP m).map Prod.fst).Nodup := by
  induction es with
  | nil => intro m h; exact h
  | cons e es ih =>
    intro m h
    cases e with
    | record k img => exact ih _ (keys_recordPending_nodup k img m h)
    | drain => exact ih _ (by simp [stepP])

theorem lookupP_foldl (k : Nat) (es : List PEv) :
    ∀ m : List (Nat × Nat),
      lookupP k (es.foldl stepP m) = lastPendingFrom k (lookupP k m) es := by
  induction es with
  | nil => intro m; rfl
  | cons e es ih =>
    intro m
    cases e with
    | record k2 img =>
      show lookupP k (es.foldl stepP (recordPending k2 img m)) =
        lastPendingFrom k (if k2 = k then some img else lookupP k m) es
      rw [ih, lookupP_recordPending]
    | drain =>
      show lookupP k (es.foldl stepP []) = lastPendingFrom k none es
      rw [ih]
      rfl

theorem lastPendingFrom_lastRecordFrom (k : Nat) (es : List PEv) :
    ∀ acc acc2 : Option Nat, (∀ v, acc = some v → acc2 = some v) →
      ∀ img, lastPendingFrom k acc es = some img → lastRecordFrom k acc2 es = some img := by
  induction es with
  | nil => intro acc acc2 hinv img h; exact hinv img h
  | cons e es ih =>
    intro acc acc2 hinv img h
    cases e with
    | record k2 i =>
      refine ih _ _ ?_ img h
      intro v hv
      by_cases hk : k2 = k
      · rw [if_pos hk] at hv ⊢; exact hv
      · rw [if_neg hk] at hv ⊢; exact hinv v hv
    | drain =>
      refine ih none acc2 ?_ img h
      intro v hv
      exact absurd hv (by simp)

theorem lastPending_imp_lastRecord (k : Nat) (es : List PEv) (img : Nat)
    (h : lastPending k es = some img) : lastRecord k es = some img :=
  lastPendingFrom_lastRecordFrom k es none none (fun _ hv => hv) img h

/-- C8: for every sequence of `record_pending` calls interleaved with
`drain_and_apply` calls, a drain placed after events `es` applies exactly
the pairs `pendingAfter es`; every key occurs at most once there (so each
drained key is applied exactly once per drain), the image pending for a key
is exactly that of its most recent record since the previous drain, and any
applied image is the image of the key's most recent `record_pending` in the
whole history before the drain — never a stale overwritten one. -/
theorem drain_applies_last_write (es : List PEv) (k : Nat) :
    lookupP k (pendingAfter es) = lastPending k es
      ∧ ((pendingAfter es).map Prod.fst).Nodup
      ∧ ∀ img, lookupP k (pendingAfter es) = some img → lastRecord k es = some img := by
  have h1 : lookupP k (pendingAfter es) = lastPending k es := lookupP_foldl k es []
  refine ⟨h1, keys_pendingAfter_aux es [] (by simp), ?_⟩
  intro img h
  exact lastPending_imp_lastRecord k es img (h1.symm.trans h)

theorem drain_applies_last_write_witness :
    lookupP 1 (pendingAfter [PEv.record 1 10, PEv.record 2 30, PEv.record 1 20]) = some 20 := by
  have h := (drain_applies_last_write [PEv.record 1 10, PEv.record 2 30, PEv.record 1 20] 1).1
  rw [h]
  rfl

end Pending
